import Mathlib

/-!
Shallow embedding of `migrate_sqlite_to_postgres.py`, a SQLite → PostgreSQL
migration script.  Strings are modelled as `List Char`; Python `str.upper` /
`str.lower` are modelled with ASCII case mapping (`Char.toUpper` /
`Char.toLower`), which agrees with Python on the ASCII keywords the script
uses.  Python numbers are modelled as `Int` (int) and `Rat` (float); SQLite
cell values as the inductive type `Value`.
-/

namespace Migrate

/-- Model of Python `needle == hay[:len(needle)]`: `needle` is a prefix of `hay`. -/
def leadsWith : List Char → List Char → Bool
  | [], _ => true
  | _ :: _, [] => false
  | a :: as, b :: bs => a = b && leadsWith as bs

/-- Model of Python `needle in hay` on strings: contiguous-substring test. -/
def strContains (needle : List Char) : List Char → Bool
  | [] => leadsWith needle []
  | c :: t => leadsWith needle (c :: t) || strContains needle t

/-- Model of Python `s.upper()` (ASCII). -/
def upperStr (s : List Char) : List Char := s.map Char.toUpper

/-- Model of Python `s.lower()` (ASCII). -/
def lowerStr (s : List Char) : List Char := s.map Char.toLower

/-- The `type_mapping` dict of `sqlite_type_to_postgres`, in insertion
(= iteration) order. -/
def type_mapping : List (List Char × List Char) :=
  [("INTEGER".data, "INTEGER".data),
   ("TEXT".data, "TEXT".data),
   ("REAL".data, "REAL".data),
   ("BLOB".data, "BYTEA".data),
   ("NUMERIC".data, "NUMERIC".data),
   ("VARCHAR".data, "VARCHAR".data),
   ("DATETIME".data, "TIMESTAMP".data),
   ("DATE".data, "DATE".data),
   ("TIME".data, "TIME".data),
   ("BOOLEAN".data, "BOOLEAN".data),
   ("JSON".data, "JSONB".data)]

/-- The `for key in type_mapping: if key in sqlite_type_upper: return ...`
loop: first pair whose keyword occurs in the (already uppercased) input wins. -/
def lookupTypeMapping : List (List Char × List Char) → List Char → Option (List Char)
  | [], _ => none
  | kv :: rest, up => if strContains kv.1 up then some kv.2 else lookupTypeMapping rest up

/-- `sqlite_type_to_postgres`: uppercase the declared type, scan the ordered
keyword table, fall back to `TEXT`. -/
def sqlite_type_to_postgres (t : List Char) : List Char :=
  match lookupTypeMapping type_mapping (upperStr t) with
  | some r => r
  | none => "TEXT".data

/-- A SQLite/Python runtime value as it flows through `convert_value`.
`vnone` is Python `None`; `vint`/`vreal` are `int`/`float`; `vstr` is `str`;
`vblob` is `bytes`.  `vbool`, `vdatetime`, `vdate`, `vtime` are the Python
objects `convert_value` can produce (`bool`, `datetime`, `date`, `time`);
the three temporal constructors carry the epoch-second value they were built
from, abstracting the calendar fields. -/
inductive Value where
  | vnone
  | vint (n : Int)
  | vreal (q : Rat)
  | vstr (s : List Char)
  | vblob (b : List Nat)
  | vbool (b : Bool)
  | vdatetime (sec : Rat)
  | vdate (sec : Rat)
  | vtime (sec : Rat)
deriving DecidableEq

/-- Python truthiness `bool(value)` for the values of `Value`. -/
def pyBool : Value → Bool
  | .vnone => false
  | .vint n => n ≠ 0
  | .vreal q => q ≠ 0
  | .vstr s => s ≠ []
  | .vblob b => b ≠ []
  | .vbool b => b
  | .vdatetime _ => true
  | .vdate _ => true
  | .vtime _ => true

/-- The truthy-token tuple `('true', '1', 'yes', 't')` of `convert_value`. -/
def truthyTokens : List (List Char) :=
  ["true".data, "1".data, "yes".data, "t".data]

/-- Smallest epoch-second value representable by Python `datetime`
(year 1); `datetime.fromtimestamp` fails below it. -/
def MIN_EPOCH_SECONDS : Rat := -62135596800

/-- Largest epoch-second value representable by Python `datetime`
(year 9999); `datetime.fromtimestamp` fails above it. -/
def MAX_EPOCH_SECONDS : Rat := 253402300799

/-- Model of `datetime.fromtimestamp(sec)`: `some` of the instant when the
argument is in the representable range, `none` when the call raises
(the out-of-range `OverflowError`/`ValueError`/`OSError` family).  The
instant is abstracted by its epoch-second value. -/
def fromtimestamp (sec : Rat) : Option Rat :=
  if MIN_EPOCH_SECONDS ≤ sec ∧ sec ≤ MAX_EPOCH_SECONDS then some sec else none

/-- `isinstance(value, (int, float))` followed by `value / 1000.0`:
the epoch-second interpretation of a numeric cell, `none` for
non-numeric values. -/
def asMillis : Value → Option Rat
  | .vint n => some ((n : Rat) / 1000)
  | .vreal q => some (q / 1000)
  | _ => none

/-- `convert_value(value, pg_type)`.  Mirrors the source branch for branch:
`None` short-circuit; `boolean` (numeric non-zero test, string truthy-token
membership, otherwise `bool(value)`); the two timestamp type names, `date`
and `time without time zone` (numeric → `fromtimestamp(value/1000.0)` with
the raising call wrapped in `try/except: return value`, non-numeric values
fall through to the final `return value`); every other type name passes the
value through unchanged. -/
def convert_value (value : Value) (pg_type : List Char) : Value :=
  if value = .vnone then .vnone
  else if pg_type = "boolean".data then
    match value with
    | .vint n => .vbool (n ≠ 0)
    | .vreal q => .vbool (q ≠ 0)
    | .vstr s => .vbool (decide (lowerStr s ∈ truthyTokens))
    | v => .vbool (pyBool v)
  else if pg_type = "timestamp without time zone".data ∨
          pg_type = "timestamp with time zone".data then
    match asMillis value with
    | some sec =>
      match fromtimestamp sec with
      | some d => .vdatetime d
      | none => value
    | none => value
  else if pg_type = "date".data then
    match asMillis value with
    | some sec =>
      match fromtimestamp sec with
      | some d => .vdate d
      | none => value
    | none => value
  else if pg_type = "time without time zone".data then
    match asMillis value with
    | some sec =>
      match fromtimestamp sec with
      | some d => .vtime d
      | none => value
    | none => value
  else value

/-- The pg type names `convert_value` treats as temporal (timestamp, date,
time). -/
def isTemporalType (t : List Char) : Bool :=
  t = "timestamp without time zone".data ∨ t = "timestamp with time zone".data ∨
    t = "date".data ∨ t = "time without time zone".data

/-- One row of `PRAGMA table_info`, as unpacked by `create_postgres_table`:
`col_id, col_name, col_type, not_null, default_val, pk`. -/
structure ColumnInfo where
  cid : Nat
  name : List Char
  ctype : List Char
  notNullFlag : Bool
  defaultVal : Option (List Char)
  pk : Bool
deriving DecidableEq

/-- `f'"{x}"'`: double-quote an identifier. -/
def quoteIdent (s : List Char) : List Char := "\"".data ++ s ++ "\"".data

/-- The `column_def` string built for one schema row inside
`create_postgres_table`. -/
def columnDefSql (c : ColumnInfo) : List Char :=
  let base := quoteIdent c.name ++ " ".data ++ sqlite_type_to_postgres c.ctype
  let base :=
    if c.pk then base ++ " PRIMARY KEY".data
    else if c.notNullFlag then base ++ " NOT NULL".data
    else base
  match c.defaultVal with
  | some d => if ¬ c.pk then base ++ " DEFAULT ".data ++ d else base
  | none => base

/-- The `create_table_sql` string of `create_postgres_table`. -/
def create_table_sql (table_name : List Char) (schema : List ColumnInfo) : List Char :=
  "CREATE TABLE IF NOT EXISTS ".data ++ quoteIdent table_name ++ " (".data ++
    List.intercalate ", ".data (schema.map columnDefSql) ++ ");".data

/-- `pg_types.get(col_name, 'text')`: look a column name up in the mapping
reported by `get_postgres_column_types`, defaulting to `text`. -/
def lookupType (pg_types : List (List Char × List Char)) (c : List Char) : List Char :=
  match pg_types.find? (fun kv => kv.1 = c) with
  | some kv => kv.2
  | none => "text".data

/-- The inner conversion loop of `migrate_table_data`: zip the column names
with the row and convert each cell at the type looked up for its column. -/
def convertRow (column_names : List (List Char))
    (pg_types : List (List Char × List Char)) (row : List Value) : List Value :=
  (column_names.zip row).map (fun p => convert_value p.2 (lookupType pg_types p.1))

/-- `batch_size = 100` in `migrate_table_data`. -/
def batch_size : Nat := 100

/-- The `for i in range(0, len(rows), batch_size): batch = rows[i:i+batch_size]`
slicing: consecutive chunks of `batch_size` rows, last one possibly shorter. -/
def toBatches : List α → List (List α)
  | [] => []
  | x :: xs => (x :: xs).take batch_size :: toBatches ((x :: xs).drop batch_size)
termination_by l => l.length
decreasing_by simp [batch_size]; omega

/-- Observable outcome of `migrate_table_data` on one table: whether the
"table is empty" report fired, the ordered column list of the prepared
`INSERT` statement, and the converted batches in the order `executemany`
submits them. -/
structure DataMigration where
  emptyReported : Bool
  insertColumns : List (List Char)
  batches : List (List (List Value))
deriving DecidableEq

/-- `migrate_table_data`: read all rows; empty ⇒ report and return without
inserting; otherwise build the insert statement over `column_names` and
submit the converted rows in batches of `batch_size`, in source order. -/
def migrate_table_data (column_names : List (List Char))
    (pg_types : List (List Char × List Char)) (rows : List (List Value)) :
    DataMigration :=
  if rows = [] then ⟨true, [], []⟩
  else ⟨false, column_names,
        (toBatches rows).map (fun b => b.map (convertRow column_names pg_types))⟩

/-- Observable outcome of processing one table in `main`: the executed
`CREATE TABLE` DDL and the data-migration outcome. -/
structure TableRun where
  createSql : List Char
  dataRun : DataMigration
deriving DecidableEq

/-- Which Python `except` arm of `main` an exception lands in:
`sqlite3.Error`, `psycopg2.Error`, or the bare `Exception` arm. -/
inductive DbError where
  | sqliteError
  | pgError
  | unexpected
deriving DecidableEq

/-- The external collaborators of `main`, as oracles: each fallible call
(connect, introspect, DDL, read, batch insert) returns its result or the
exception class it raises.  `colTypes` models `get_postgres_column_types`. -/
structure Env where
  sqliteConnect : Except DbError Unit
  pgConnect : Except DbError Unit
  listTables : Except DbError (List (List Char))
  describe : List Char → Except DbError (List ColumnInfo)
  runDdl : List Char → Except DbError Unit
  readRows : List Char → Except DbError (List (List Char) × List (List Value))
  colTypes : List Char → List (List Char × List Char)
  runBatches : List Char → List (List (List Value)) → Except DbError Unit
  commitResult : Except DbError Unit

/-- The body of `main`'s per-table loop: `get_table_schema`, then
`create_postgres_table` (builds and executes the DDL, re-raising failures),
then `migrate_table_data` (reads rows, returns early when empty, otherwise
converts and inserts the batches, re-raising failures).  The first exception
propagates to `main`'s handlers. -/
def processTable (env : Env) (t : List Char) : Except DbError TableRun := do
  let schema ← env.describe t
  let sql := create_table_sql t schema
  let _ ← env.runDdl sql
  let (column_names, rows) ← env.readRows t
  if rows = [] then
    pure ⟨sql, migrate_table_data column_names (env.colTypes t) rows⟩
  else
    let dm := migrate_table_data column_names (env.colTypes t) rows
    let _ ← env.runBatches t dm.batches
    pure ⟨sql, dm⟩

/-- `for table in tables:` in `main`: process tables in order until the
first exception.  Returns the tables whose processing was started (in
order) and the exception that aborted the loop, if any. -/
def runTables (env : Env) : List (List Char) → List (List Char) × Option DbError
  | [] => ([], none)
  | t :: ts =>
    match processTable env t with
    | .ok _ =>
      let r := runTables env ts
      (t :: r.1, r.2)
    | .error e => ([t], some e)

/-- Observable outcome of a whole `main` run: the process exit code, whether
`pg_conn.commit()` ran, whether `pg_conn.rollback()` ran, and which tables
the loop started processing. -/
structure RunResult where
  exitCode : Nat
  committed : Bool
  rolledBack : Bool
  processed : List (List Char)
deriving DecidableEq

/-- `main`'s `except` clauses, given the raised error and whether the
PostgreSQL connection exists at that point: `sqlite3.Error` ⇒ `sys.exit(1)`
with no rollback; `psycopg2.Error` and the bare `Exception` arm ⇒ rollback
when `pg_conn` exists, then `sys.exit(1)` (when `pg_conn` is unbound the
handler's `if pg_conn:` itself raises and the process still exits non-zero,
without rollback). -/
def finishRun (e : DbError) (pgConnExists : Bool) (processed : List (List Char)) :
    RunResult :=
  match e with
  | .sqliteError => ⟨1, false, false, processed⟩
  | .pgError => ⟨1, false, pgConnExists, processed⟩
  | .unexpected => ⟨1, false, pgConnExists, processed⟩

/-- `main`: confirmation prompt (anything whose lowercase form is not `yes`
or `y` cancels with exit code 0), then connect to SQLite, connect to
PostgreSQL, list tables, run the per-table loop, and call
`pg_conn.commit()` once only when every table succeeded; any exception —
including one raised by the `commit()` call itself, which sits inside the
`try` block — lands in `finishRun`. -/
def main_run (env : Env) (response : List Char) : RunResult :=
  if ¬ (lowerStr response = "yes".data ∨ lowerStr response = "y".data) then
    ⟨0, false, false, []⟩
  else
    match env.sqliteConnect with
    | .error e => finishRun e false []
    | .ok _ =>
      match env.pgConnect with
      | .error e => finishRun e false []
      | .ok _ =>
        match env.listTables with
        | .error e => finishRun e true []
        | .ok tables =>
          match runTables env tables with
          | (ps, none) =>
            match env.commitResult with
            | .ok _ => ⟨0, true, false, ps⟩
            | .error e => finishRun e true ps
          | (ps, some e) => finishRun e true ps

/-! ### Helper lemmas -/

theorem toBatches_flatten (l : List α) : (toBatches l).flatten = l := by
  match l with
  | [] => simp [toBatches]
  | x :: xs =>
    rw [toBatches]
    have ih := toBatches_flatten ((x :: xs).drop batch_size)
    simp [ih]
termination_by l.length
decreasing_by simp [batch_size]; omega

theorem toBatches_eq_nil (l : List α) (h : l = []) : toBatches l = [] := by
  subst h; simp [toBatches]

theorem mem_toBatches_ne_nil {l b : List α} (hb : b ∈ toBatches l) : b ≠ [] := by
  match l with
  | [] => simp [toBatches] at hb
  | x :: xs =>
    rw [toBatches] at hb
    rcases List.mem_cons.mp hb with h | h
    · subst h
      intro hnil
      have := congrArg List.length hnil
      simp [List.length_take, batch_size] at this
    · exact mem_toBatches_ne_nil h
termination_by l.length
decreasing_by simp [batch_size]; omega

theorem mem_toBatches_length_le {l b : List α} (hb : b ∈ toBatches l) :
    b.length ≤ batch_size := by
  match l with
  | [] => simp [toBatches] at hb
  | x :: xs =>
    rw [toBatches] at hb
    rcases List.mem_cons.mp hb with h | h
    · subst h; exact List.length_take_le ..
    · exact mem_toBatches_length_le h
termination_by l.length
decreasing_by simp [batch_size]; omega

theorem mem_toBatches_dropLast_length {l b : List α}
    (hb : b ∈ (toBatches l).dropLast) : b.length = batch_size := by
  match l with
  | [] => simp [toBatches] at hb
  | x :: xs =>
    rw [toBatches] at hb
    match hrest : toBatches ((x :: xs).drop batch_size) with
    | [] => rw [hrest] at hb; simp at hb
    | y :: ys =>
      rw [hrest, List.dropLast_cons₂] at hb
      rcases List.mem_cons.mp hb with h | h
      · subst h
        have hdrop : (x :: xs).drop batch_size ≠ [] := by
          intro hd
          rw [toBatches_eq_nil _ hd] at hrest
          exact List.noConfusion hrest
        have hlen : batch_size < (x :: xs).length := by
          by_contra hle
          exact hdrop (List.drop_eq_nil_of_le (by omega))
        simp only [List.length_cons] at hlen
        simp [List.length_take]
        omega
      · rw [← hrest] at h
        exact mem_toBatches_dropLast_length h
termination_by l.length
decreasing_by simp [batch_size]; omega

theorem lookupTypeMapping_eq_none {m : List (List Char × List Char)} {up : List Char}
    (h : ∀ kv ∈ m, strContains kv.1 up = false) : lookupTypeMapping m up = none := by
  induction m with
  | nil => rfl
  | cons kv rest ih =>
    rw [lookupTypeMapping, if_neg (by simp [h kv (by simp)])]
    exact ih (fun x hx => h x (by simp [hx]))

theorem lookupTypeMapping_first_match {pre post : List (List Char × List Char)}
    {k v up : List Char}
    (hpre : ∀ kv ∈ pre, strContains kv.1 up = false)
    (hk : strContains k up = true) :
    lookupTypeMapping (pre ++ (k, v) :: post) up = some v := by
  induction pre with
  | nil => simp [lookupTypeMapping, hk]
  | cons a rest ih =>
    rw [List.cons_append, lookupTypeMapping, if_neg (by simp [hpre a (by simp)])]
    exact ih (fun x hx => hpre x (by simp [hx]))

theorem zipMap_getElem? (f : α → β → γ) (l1 : List α) (l2 : List β) (k : Nat) :
    ((l1.zip l2).map (fun p => f p.1 p.2))[k]? =
      l1[k]?.bind (fun a => l2[k]?.map (fun b => f a b)) := by
  induction l1 generalizing l2 k with
  | nil => simp
  | cons a as ih =>
    match l2, k with
    | [], _ => simp
    | b :: bs, 0 => simp
    | b :: bs, k + 1 => simpa using ih bs k

theorem runTables_append_ok (env : Env) (ts1 : List (List Char)) (t : List Char)
    (ts2 : List (List Char)) (e : DbError)
    (hok : ∀ t' ∈ ts1, ∃ r, processTable env t' = .ok r)
    (hfail : processTable env t = .error e) :
    runTables env (ts1 ++ t :: ts2) = (ts1 ++ [t], some e) := by
  induction ts1 with
  | nil => simp [runTables, hfail]
  | cons a rest ih =>
    obtain ⟨r, hr⟩ := hok a (by simp)
    rw [List.cons_append, runTables, hr]
    simp [ih (fun x hx => hok x (by simp [hx]))]

theorem main_run_shape (env : Env) (response : List Char)
    (hresp : lowerStr response = "yes".data ∨ lowerStr response = "y".data) :
    (∃ e b ps, main_run env response = finishRun e b ps) ∨
    (∃ ps, main_run env response = ⟨0, true, false, ps⟩) := by
  rw [main_run, if_neg (not_not_intro hresp)]
  cases env.sqliteConnect with
  | error e => exact Or.inl ⟨e, false, [], rfl⟩
  | ok u =>
    cases env.pgConnect with
    | error e => exact Or.inl ⟨e, false, [], rfl⟩
    | ok u2 =>
      cases env.listTables with
      | error e => exact Or.inl ⟨e, true, [], rfl⟩
      | ok tables =>
        rcases hrt : runTables env tables with ⟨ps, oe⟩
        cases oe with
        | some e => exact Or.inl ⟨e, true, ps, by simp [hrt]⟩
        | none =>
          cases env.commitResult with
          | error e => exact Or.inl ⟨e, true, ps, by simp [hrt]⟩
          | ok u3 => exact Or.inr ⟨ps, by simp [hrt]⟩

/-! ### Claim theorems -/

/-- C4: `sqlite_type_to_postgres` is total and deterministic (it is a
function, and a result always exists); it matches the uppercased input
case-insensitively by substring against the ordered keyword table
`type_mapping`, first match in order winning; and when no keyword occurs in
the input it returns the fallback `TEXT`. -/
theorem C4_mapType_total_first_match_fallback (s : List Char) :
    (∃ r : List Char, sqlite_type_to_postgres s = r) ∧
    (∀ pre post : List (List Char × List Char), ∀ k v : List Char,
      type_mapping = pre ++ (k, v) :: post →
      (∀ kv ∈ pre, strContains kv.1 (upperStr s) = false) →
      strContains k (upperStr s) = true →
      sqlite_type_to_postgres s = v) ∧
    ((∀ kv ∈ type_mapping, strContains kv.1 (upperStr s) = false) →
      sqlite_type_to_postgres s = "TEXT".data) := by
  refine ⟨⟨sqlite_type_to_postgres s, rfl⟩, ?_, ?_⟩
  · intro pre post k v hsplit hpre hk
    rw [sqlite_type_to_postgres, hsplit, lookupTypeMapping_first_match hpre hk]
  · intro h
    rw [sqlite_type_to_postgres, lookupTypeMapping_eq_none h]

/-- C4 witness: on `"FOO"`, no keyword matches and the fallback `TEXT` is
returned. -/
theorem C4_witness : sqlite_type_to_postgres "FOO".data = "TEXT".data :=
  (C4_mapType_total_first_match_fallback "FOO".data).2.2 (by decide)

/-- C6: `convert_value` maps a `None` input to `None` for every target type
name, before any type-specific conversion. -/
theorem C6_null_passthrough (t : List Char) : convert_value .vnone t = .vnone := by
  simp [convert_value]

/-- C5: for the `boolean` target type, numeric inputs convert by a non-zero
test, string inputs convert to true exactly when their lowercase form is in
the truthy-token set `true/1/yes/t`, and the remaining non-null inputs
convert by generic truthiness (`pyBool`); in particular `0 ↦ false`,
`1 ↦ true`, `"yes" ↦ true`, `"no" ↦ false`. -/
theorem C5_boolean_conversion :
    (∀ n : Int, convert_value (.vint n) "boolean".data = .vbool (decide (n ≠ 0))) ∧
    (∀ q : Rat, convert_value (.vreal q) "boolean".data = .vbool (decide (q ≠ 0))) ∧
    (∀ s : List Char,
      convert_value (.vstr s) "boolean".data = .vbool (decide (lowerStr s ∈ truthyTokens))) ∧
    (∀ b : List Nat, convert_value (.vblob b) "boolean".data = .vbool (pyBool (.vblob b))) ∧
    (∀ b : Bool, convert_value (.vbool b) "boolean".data = .vbool (pyBool (.vbool b))) ∧
    convert_value (.vint 0) "boolean".data = .vbool false ∧
    convert_value (.vint 1) "boolean".data = .vbool true ∧
    convert_value (.vstr "yes".data) "boolean".data = .vbool true ∧
    convert_value (.vstr "YES".data) "boolean".data = .vbool true ∧
    convert_value (.vstr "no".data) "boolean".data = .vbool false := by
  refine ⟨fun n => ?_, fun q => ?_, fun s => ?_, fun b => ?_, fun b => ?_,
    by decide, by decide, by decide, by decide, by decide⟩ <;>
    simp [convert_value]

/-- C3: `convert_value` is total over values and target type names (a result
always exists; the one internally fallible call is guarded), and for a
temporal target type with a numeric input whose epoch-millisecond
interpretation is outside the representable range of `fromtimestamp`, the
original raw value is returned unchanged. -/
theorem C3_convert_total_out_of_range_passthrough (v : Value) (t : List Char) :
    (∃ r : Value, convert_value v t = r) ∧
    (isTemporalType t = true → ∀ q : Rat, asMillis v = some q →
      fromtimestamp q = none → convert_value v t = v) := by
  refine ⟨⟨convert_value v t, rfl⟩, ?_⟩
  intro ht q hm hoor
  have hb : ¬ (t = "boolean".data) := by
    rintro rfl; revert ht; decide
  rcases v with _ | n | qq | s | b | b | d | d | d <;> simp [asMillis] at hm <;>
    simp [isTemporalType] at ht <;>
    rcases ht with rfl | rfl | rfl | rfl <;>
    simp [convert_value, asMillis, hm, hoor]

/-- C3 witness: the numeric input `10^15` (milliseconds) is out of range for
`date` conversion and is passed through unchanged. -/
theorem C3_witness :
    convert_value (Value.vint 1000000000000000) "date".data
      = Value.vint 1000000000000000 :=
  (C3_convert_total_out_of_range_passthrough (Value.vint 1000000000000000)
      "date".data).2 (by decide) (((1000000000000000 : Int) : Rat) / 1000)
    rfl (by norm_num [fromtimestamp, MIN_EPOCH_SECONDS, MAX_EPOCH_SECONDS])

/-- C10: a column name absent from the reported column-type mapping is
looked up as the generic `text` type, and conversion at `text` passes every
value through unchanged, so every cell conversion has a defined target
type. -/
theorem C10_missing_column_text_passthrough (pg_types : List (List Char × List Char))
    (c : List Char) (v : Value) (h : ∀ p ∈ pg_types, p.1 ≠ c) :
    lookupType pg_types c = "text".data ∧
    convert_value v (lookupType pg_types c) = v := by
  have hf : pg_types.find? (fun kv => kv.1 = c) = none :=
    List.find?_eq_none.mpr (fun p hp => by simp [h p hp])
  have hl : lookupType pg_types c = "text".data := by simp [lookupType, hf]
  refine ⟨hl, ?_⟩
  rw [hl]
  rcases v with _ | n | q | s | b | b | d | d | d <;> rfl

/-- C10 witness: with the mapping `{a ↦ boolean}`, the unmapped column `b`
resolves to `text` and the value `7` passes through. -/
theorem C10_witness :
    lookupType [("a".data, "boolean".data)] "b".data = "text".data ∧
    convert_value (Value.vint 7) (lookupType [("a".data, "boolean".data)] "b".data)
      = Value.vint 7 :=
  C10_missing_column_text_passthrough [("a".data, "boolean".data)] "b".data
    (Value.vint 7) (by decide)

/-- C7: a table whose source read returns zero rows is reported as empty,
causes zero insert submissions, and completes successfully (`processTable`
returns `.ok`), while the `CREATE TABLE` DDL for that table has still been
executed (its successful execution is part of the run). -/
theorem C7_empty_table (env : Env) (t : List Char) (schema : List ColumnInfo)
    (column_names : List (List Char))
    (h1 : env.describe t = .ok schema)
    (h2 : env.runDdl (create_table_sql t schema) = .ok ())
    (h3 : env.readRows t = .ok (column_names, [])) :
    processTable env t = .ok ⟨create_table_sql t schema, ⟨true, [], []⟩⟩ ∧
    (migrate_table_data column_names (env.colTypes t) []).emptyReported = true ∧
    (migrate_table_data column_names (env.colTypes t) []).batches = [] := by
  refine ⟨?_, by simp [migrate_table_data], by simp [migrate_table_data]⟩
  simp [processTable, h1, h2, h3, Bind.bind, Except.bind, migrate_table_data,
    pure, Except.pure]

/-- The environment used to instantiate the empty-table and driver-success
scenarios: one table `a`, empty, with every external call succeeding. -/
def envEmpty : Env :=
  { sqliteConnect := .ok ()
    pgConnect := .ok ()
    listTables := .ok ["a".data]
    describe := fun _ => .ok []
    runDdl := fun _ => .ok ()
    readRows := fun _ => .ok ([], [])
    colTypes := fun _ => []
    runBatches := fun _ _ => .ok ()
    commitResult := .ok () }

/-- C7 witness: in `envEmpty`, table `a` is created, reported empty, and
migrated successfully with zero insert batches. -/
theorem C7_witness :
    processTable envEmpty "a".data
      = .ok ⟨create_table_sql "a".data [], ⟨true, [], []⟩⟩ ∧
    (migrate_table_data [] (envEmpty.colTypes "a".data) []).emptyReported = true ∧
    (migrate_table_data [] (envEmpty.colTypes "a".data) []).batches = [] :=
  C7_empty_table envEmpty "a".data [] [] rfl rfl rfl

/-- C8: for a non-empty row list, the submitted batches concatenate (in
submission order) to exactly the converted source rows in source order — no
row reordered, duplicated, or dropped — every batch is non-empty with at
most `batch_size = 100` rows, and every batch other than the last has
exactly `batch_size` rows. -/
theorem C8_batching (column_names : List (List Char))
    (pg_types : List (List Char × List Char)) (rows : List (List Value))
    (h : rows ≠ []) :
    ((migrate_table_data column_names pg_types rows).batches).flatten
      = rows.map (convertRow column_names pg_types) ∧
    (∀ b ∈ (migrate_table_data column_names pg_types rows).batches,
      b ≠ [] ∧ b.length ≤ batch_size) ∧
    (∀ b ∈ ((migrate_table_data column_names pg_types rows).batches).dropLast,
      b.length = batch_size) := by
  have hbatch : (migrate_table_data column_names pg_types rows).batches
      = (toBatches rows).map (fun b => b.map (convertRow column_names pg_types)) := by
    simp [migrate_table_data, h]
  refine ⟨?_, ?_, ?_⟩
  · rw [hbatch, ← List.map_flatten, toBatches_flatten]
  · intro b hb
    rw [hbatch] at hb
    obtain ⟨b0, hb0, rfl⟩ := List.mem_map.mp hb
    exact ⟨by simp [mem_toBatches_ne_nil hb0],
      by simpa using mem_toBatches_length_le hb0⟩
  · intro b hb
    rw [hbatch, ← List.map_dropLast] at hb
    obtain ⟨b0, hb0, rfl⟩ := List.mem_map.mp hb
    simpa using mem_toBatches_dropLast_length hb0

/-- C8 witness: a single one-row table forms one batch whose concatenation
is the converted row list. -/
theorem C8_witness :
    ((migrate_table_data ["a".data] [] [[Value.vint 1]]).batches).flatten
      = [[Value.vint 1]].map (convertRow ["a".data] []) :=
  (C8_batching ["a".data] [] [[Value.vint 1]] (by decide)).1

/-- C9: the converted row is positionally aligned with the column order:
it has one entry per column (given the source row tuple has one entry per
column), entry `k` of the converted row is the conversion of entry `k` of
the source row at the type looked up for column `k`, and the column list of
the prepared insert statement is exactly the source column-name list. -/
theorem C9_column_alignment (column_names : List (List Char))
    (pg_types : List (List Char × List Char)) (row : List Value)
    (h : row.length = column_names.length) :
    (convertRow column_names pg_types row).length = column_names.length ∧
    (∀ k : Nat, (convertRow column_names pg_types row)[k]? =
      column_names[k]?.bind (fun c =>
        row[k]?.map (fun v => convert_value v (lookupType pg_types c)))) ∧
    (∀ rows : List (List Value), rows ≠ [] →
      (migrate_table_data column_names pg_types rows).insertColumns
        = column_names) := by
  refine ⟨?_, ?_, ?_⟩
  · simp [convertRow, h]
  · intro k
    exact zipMap_getElem? (fun c v => convert_value v (lookupType pg_types c))
      column_names row k
  · intro rows hr
    simp [migrate_table_data, hr]

/-- C9 witness: with columns `a, b` typed `boolean, text`, the converted row
of `(1, 2)` aligns positionally: entry 0 converts at `boolean`, entry 1 at
`text`, and the insert column list is `a, b`. -/
theorem C9_witness :
    (convertRow ["a".data, "b".data] [("a".data, "boolean".data)]
      [Value.vint 1, Value.vint 2]).length = 2 ∧
    (convertRow ["a".data, "b".data] [("a".data, "boolean".data)]
      [Value.vint 1, Value.vint 2])[0]? = some (Value.vbool true) ∧
    (convertRow ["a".data, "b".data] [("a".data, "boolean".data)]
      [Value.vint 1, Value.vint 2])[1]? = some (Value.vint 2) ∧
    (migrate_table_data ["a".data, "b".data] [("a".data, "boolean".data)]
      [[Value.vint 1, Value.vint 2]]).insertColumns = ["a".data, "b".data] := by
  have h := C9_column_alignment ["a".data, "b".data] [("a".data, "boolean".data)]
    [Value.vint 1, Value.vint 2] (by decide)
  refine ⟨h.1, ?_, ?_, h.2.2 [[Value.vint 1, Value.vint 2]] (by decide)⟩
  · rw [h.2.1 0]; decide
  · rw [h.2.1 1]; decide

/-- A run in which introspecting the first of two tables raises a
SQLite-side error while every other external call would succeed: both
connections are established, tables `a` and `b` are listed, and
`describe a` raises `sqlite3.Error`. -/
def envBad : Env :=
  { sqliteConnect := .ok ()
    pgConnect := .ok ()
    listTables := .ok ["a".data, "b".data]
    describe := fun t => if t = "a".data then .error .sqliteError else .ok []
    runDdl := fun _ => .ok ()
    readRows := fun _ => .ok ([], [])
    colTypes := fun _ => []
    runBatches := fun _ _ => .ok ()
    commitResult := .ok () }

/-- A run of three tables `a`, `b`, `c` in which only the introspection of
the middle table `b` raises a SQLite-side error; every other external call
succeeds. -/
def envBadMid : Env :=
  { sqliteConnect := .ok ()
    pgConnect := .ok ()
    listTables := .ok ["a".data, "b".data, "c".data]
    describe := fun t => if t = "b".data then .error .sqliteError else .ok []
    runDdl := fun _ => .ok ()
    readRows := fun _ => .ok ([], [])
    colTypes := fun _ => []
    runBatches := fun _ _ => .ok ()
    commitResult := .ok () }

/-- C1 counterexample: in `envBad`, introspection of table `a` fails, and
contrary to the claim the driver does not skip it and continue — table `b`
is never processed and the run exits non-zero without committing. -/
theorem C1_counterexample :
    envBad.describe "a".data = .error .sqliteError ∧
    envBad.listTables = .ok ["a".data, "b".data] ∧
    (main_run envBad "yes".data).exitCode = 1 ∧
    (main_run envBad "yes".data).committed = false ∧
    (main_run envBad "yes".data).processed = ["a".data] ∧
    "b".data ∉ (main_run envBad "yes".data).processed :=
  ⟨rfl, rfl, rfl, rfl, rfl, by decide⟩

/-- C1 (amended): an introspection failure of any listed table — at any
position in the table list, after any number of earlier tables migrated
successfully — is fatal to the run: the exception propagates to `main`'s
top-level handler, the process exits non-zero without committing, and the
failing table is the last one processed (the remaining tables are never
attempted). -/
theorem C1_introspection_failure_fatal (env : Env) (response : List Char)
    (ts1 : List (List Char)) (t : List Char) (ts2 : List (List Char)) (e : DbError)
    (hresp : lowerStr response = "yes".data ∨ lowerStr response = "y".data)
    (hc1 : env.sqliteConnect = .ok ()) (hc2 : env.pgConnect = .ok ())
    (hlt : env.listTables = .ok (ts1 ++ t :: ts2))
    (hok : ∀ t' ∈ ts1, ∃ r, processTable env t' = .ok r)
    (hd : env.describe t = .error e) :
    (main_run env response).exitCode = 1 ∧
    (main_run env response).committed = false ∧
    (main_run env response).processed = ts1 ++ [t] := by
  have hpt : processTable env t = .error e := by
    simp [processTable, hd, Bind.bind, Except.bind]
  have hrt : runTables env (ts1 ++ t :: ts2) = (ts1 ++ [t], some e) :=
    runTables_append_ok env ts1 t ts2 e hok hpt
  cases e <;>
    simp [main_run, hresp, hc1, hc2, hlt, hrt, finishRun]

/-- C1 witness: the amended statement instantiated at `envBadMid`, where
the middle table `b` of three fails introspection: table `a` migrated,
`b` is the last table processed, `c` is never attempted, exit code 1,
nothing committed. -/
theorem C1_witness :
    (main_run envBadMid "yes".data).exitCode = 1 ∧
    (main_run envBadMid "yes".data).committed = false ∧
    (main_run envBadMid "yes".data).processed = ["a".data] ++ ["b".data] :=
  C1_introspection_failure_fatal envBadMid "yes".data ["a".data] "b".data
    ["c".data] .sqliteError (Or.inl rfl) rfl rfl rfl
    (by intro t' ht'; rw [List.mem_singleton] at ht'; subst ht'; exact ⟨_, rfl⟩)
    rfl

/-- C2 counterexample: in `envBad` a source-side (SQLite) error aborts the
run while the target connection exists, and contrary to the claim the
target transaction is not rolled back before termination (the
`sqlite3.Error` handler calls `sys.exit(1)` without `pg_conn.rollback()`). -/
theorem C2_counterexample :
    (runTables envBad ["a".data, "b".data]).2 = some .sqliteError ∧
    envBad.pgConnect = .ok () ∧
    (main_run envBad "yes".data).exitCode = 1 ∧
    (main_run envBad "yes".data).committed = false ∧
    (main_run envBad "yes".data).rolledBack = false :=
  ⟨rfl, rfl, rfl, rfl, rfl⟩

/-- C2 (amended): every confirmed run exits 0 or 1 and commits only on the
exit-0 path; enumerating the phases after confirmation: a SQLite-connect
failure, or a PostgreSQL-connect failure (no target connection exists in
either case), exits 1 with neither commit nor rollback; a table-listing
failure, a per-table-loop failure, or a failure of the final `commit()`
call (the target connection exists in all three cases) exits 1 without
committing, with the target transaction rolled back exactly when the error
is not a source-side (`sqlite3.Error`) one; and when every phase, every
table, and the commit succeed, the run exits 0, committed, with no
rollback — so the single commit happens only after every table has
completed successfully. -/
theorem C2_error_exit_rollback_commit (env : Env) (response : List Char)
    (hresp : lowerStr response = "yes".data ∨ lowerStr response = "y".data) :
    ((main_run env response).exitCode = 0 ∨ (main_run env response).exitCode = 1) ∧
    ((main_run env response).committed = true →
      (main_run env response).exitCode = 0 ∧
      (main_run env response).rolledBack = false) ∧
    (∀ e : DbError, env.sqliteConnect = .error e →
      main_run env response = ⟨1, false, false, []⟩) ∧
    (∀ e : DbError, env.sqliteConnect = .ok () → env.pgConnect = .error e →
      main_run env response = ⟨1, false, false, []⟩) ∧
    (∀ e : DbError, env.sqliteConnect = .ok () → env.pgConnect = .ok () →
      env.listTables = .error e →
      main_run env response = ⟨1, false, decide (e ≠ DbError.sqliteError), []⟩) ∧
    (∀ (e : DbError) (tables : List (List Char)),
      env.sqliteConnect = .ok () → env.pgConnect = .ok () →
      env.listTables = .ok tables → (runTables env tables).2 = some e →
      (main_run env response).exitCode = 1 ∧
      (main_run env response).committed = false ∧
      (main_run env response).rolledBack = decide (e ≠ DbError.sqliteError)) ∧
    (∀ (e : DbError) (tables : List (List Char)),
      env.sqliteConnect = .ok () → env.pgConnect = .ok () →
      env.listTables = .ok tables → (runTables env tables).2 = none →
      env.commitResult = .error e →
      (main_run env response).exitCode = 1 ∧
      (main_run env response).committed = false ∧
      (main_run env response).rolledBack = decide (e ≠ DbError.sqliteError)) ∧
    (∀ tables : List (List Char),
      env.sqliteConnect = .ok () → env.pgConnect = .ok () →
      env.listTables = .ok tables → (runTables env tables).2 = none →
      env.commitResult = .ok () →
      (main_run env response).exitCode = 0 ∧
      (main_run env response).committed = true ∧
      (main_run env response).rolledBack = false) := by
  refine ⟨?_, ?_, ?_, ?_, ?_, ?_, ?_, ?_⟩
  · rcases main_run_shape env response hresp with ⟨e, b, ps, h⟩ | ⟨ps, h⟩
    · rw [h]; cases e <;> simp [finishRun]
    · rw [h]; simp
  · rcases main_run_shape env response hresp with ⟨e, b, ps, h⟩ | ⟨ps, h⟩
    · rw [h]; cases e <;> simp [finishRun]
    · rw [h]; simp
  · intro e h1
    cases e <;> simp [main_run, hresp, h1, finishRun]
  · intro e h1 h2
    cases e <;> simp [main_run, hresp, h1, h2, finishRun]
  · intro e h1 h2 h3
    cases e <;> simp [main_run, hresp, h1, h2, h3, finishRun]
  · intro e tables h1 h2 h3 h4
    rcases hrt : runTables env tables with ⟨ps, oe⟩
    rw [hrt] at h4
    simp only at h4
    subst h4
    cases e <;> simp [main_run, hresp, h1, h2, h3, hrt, finishRun]
  · intro e tables h1 h2 h3 h4 h5
    rcases hrt : runTables env tables with ⟨ps, oe⟩
    rw [hrt] at h4
    simp only at h4
    subst h4
    cases e <;> simp [main_run, hresp, h1, h2, h3, hrt, h5, finishRun]
  · intro tables h1 h2 h3 h4 h5
    rcases hrt : runTables env tables with ⟨ps, oe⟩
    rw [hrt] at h4
    simp only at h4
    subst h4
    simp [main_run, hresp, h1, h2, h3, hrt, h5]

/-- C2 witness: the amended statement instantiated at `envBad`, whose loop
fails with a source-side error: exit code 1, no commit, no rollback. -/
theorem C2_witness :
    (main_run envBad "yes".data).exitCode = 1 ∧
    (main_run envBad "yes".data).committed = false ∧
    (main_run envBad "yes".data).rolledBack
      = decide (DbError.sqliteError ≠ DbError.sqliteError) :=
  (C2_error_exit_rollback_commit envBad "yes".data
    (Or.inl rfl)).2.2.2.2.2.1 .sqliteError ["a".data, "b".data] rfl rfl rfl rfl

end Migrate
